import Mathlib

/-!
Verification development for the scan-engine of a barcode-scanning app.

The engine (`ScanProvider.scan` together with its helpers) executes an
"output profile" — an ordered list of typed output blocks — once per scan
pass: it resolves device variables, evaluates `function` blocks, branches on
`if`/`endif` blocks, acquires barcodes / quantities / selected options from
asynchronous collaborators, and assembles a `ScanModel` result record.

The shallow embedding below models:
 * the block data model (`OutputBlockModel`, `BlockType`);
 * one interpreter pass over a working copy of the profile (`runBlocks`),
   with the asynchronous acquisition collaborators supplied as explicit
   response streams: each response records the value the promise resolved
   with (`result`) and the value of the provider-global `_scanCallId`
   field at the moment the corresponding `await` resumed (`tokenAtResume`);
 * the acquisition-mode derivation (`deriveAcquisitionMode`);
 * the scan-loop orchestrator `again` (`againStep`, `runAgain`) with its
   infinite-loop guard and cancellation-generation token;
 * the CODE_39 → CODE_32 barcode-text rewrite performed in `getBarcode`;
 * the quantity-dialog button handlers (`getQuantity`);
 * the textual variable-injection step of `evalCode`.

Expression evaluation itself (`eval` on the host) is abstracted by the
oracle `PassEnv.evalO`; a `none` result models a thrown evaluation error.
`JSVal` abstracts a host value by its two observations the engine uses:
its string rendering and the outcome of the loose comparison `v == true`.
-/

/-- The `type` field of an output block. The source stores these as the
strings `key`, `text`, `variable`, `select_option`, `function`, `barcode`,
`delay`, `run`, `http`, `if`, `endif`; `variableB`, `ifB`, `endifB` stand for
the last three names Lean reserves. -/
inductive BlockType where
  | key
  | text
  | variableB
  | select_option
  | function
  | barcode
  | delay
  | run
  | http
  | ifB
  | endifB
deriving DecidableEq, Repr

/-- One output block of an output profile (`OutputBlockModel` in the source):
a `type`, a `value` (literal text, variable name, expression, or resolved
value) and an optional acquisition label. -/
structure OutputBlockModel where
  type : BlockType
  value : String
  label : Option String := none
deriving DecidableEq, Repr

/-- A host (JavaScript) value as observed by the engine: `asString` is its
string rendering (used when it is stored into a block's `value`), `eqTrue`
is the outcome of the loose comparison `v == true` (used by the `if` block's
`condition == true` test). -/
structure JSVal where
  asString : String
  eqTrue : Bool
deriving DecidableEq, Repr

/-- The variable context seeded per pass and mutated while the pass runs
(the `variables` object of `scan()`): `barcode`, `barcodes`, `quantity`,
`timestamp`, `device_name`. -/
structure ScanVariables where
  barcode : String
  barcodes : List String
  quantity : Option String
  timestamp : Nat
  device_name : String
deriving DecidableEq, Repr

/-- The result record assembled at the end of a completed pass
(`ScanModel` in the source). -/
structure ScanModel where
  id : Nat
  date : Nat
  repeated : Bool
  text : String
  displayValue : String
  outputBlocks : List OutputBlockModel
  quantity : Option String
deriving DecidableEq, Repr

/-- Modelled from the spec: `ScanModel.ToString` is not part of the given
sources; the spec describes `display_value` as "a deterministic
human-readable join of all resolved blocks, stable across runs for identical
inputs". We model it as the space-join of the resolved block values; the
claims below treat it as an opaque deterministic function. -/
def ScanModelToString (blocks : List OutputBlockModel) : String :=
  String.intercalate " " (blocks.map (fun b => b.value))

/-- `scan.text` (deprecated backwards-compatibility field): the values of
the `barcode` blocks, empty entries removed, joined by single spaces. -/
def scanLegacyText (blocks : List OutputBlockModel) : String :=
  String.intercalate " "
    ((blocks.map (fun b => if b.type == BlockType.barcode then b.value else "")).filter
      (fun x => x != ""))

/-- Forward scan for the `endif` matching an already-consumed `if`:
relative-index version. `findEndIfRel rest depth` scans `rest` (the blocks
after the `if`) tracking nesting depth: a nested `if` increments the depth,
an `endif` at positive depth decrements it, and the first `endif` met at
depth `0` is the match; its index in `rest` is returned. -/
def findEndIfRel : List OutputBlockModel → Nat → Option Nat
  | [], _ => none
  | b :: rest, depth =>
    match b.type with
    | BlockType.endifB =>
      if depth == 0 then some 0 else (findEndIfRel rest (depth - 1)).map (· + 1)
    | BlockType.ifB => (findEndIfRel rest (depth + 1)).map (· + 1)
    | _ => (findEndIfRel rest depth).map (· + 1)

/-- Modelled from the spec: `OutputBlockModel.FindEndIfIndex` is not part of
the given sources. Per the spec it locates the matching `EndIf` "by
forward-scanning with nesting-depth tracking (increment depth on nested
`If`, decrement on `EndIf`, match found when depth returns to the starting
level)", starting from index `startFrom`; `none` models the
precondition-violating unmatched case. -/
def FindEndIfIndex (blocks : List OutputBlockModel) (startFrom : Nat) : Option Nat :=
  (findEndIfRel (blocks.drop startFrom) 0).map (· + startFrom)

/-- `balFrom d body` holds when scanning `body` starting at nesting depth
`d` never meets an `endif` at depth `0` and ends back at depth `0`: the
well-nestedness of the content strictly between an `if` and its matching
`endif`. -/
def balFrom : Nat → List OutputBlockModel → Bool
  | d, [] => d == 0
  | d, b :: rest =>
    match b.type with
    | BlockType.endifB => decide (0 < d) && balFrom (d - 1) rest
    | BlockType.ifB => balFrom (d + 1) rest
    | _ => balFrom d rest

/-- One entry of the settings' barcode-format list. -/
structure BarcodeFormat where
  enabled : Bool
  name : String
deriving DecidableEq, Repr

/-- `this.barcodeFormats.findIndex(x => x.enabled && x.name == 'CODE_32') != -1`. -/
def code32Enabled (formats : List BarcodeFormat) : Bool :=
  formats.any (fun x => x.enabled && x.name == "CODE_32")

/-- A result pushed by the native barcode-scanner plugin. -/
structure BarcodeScanResult where
  cancelled : Bool
  text : String
  format : String
deriving DecidableEq, Repr

/-- The CODE_39 fix as written in the `single` / `mixed_continue` arm of
`getBarcode`: if the text is truthy (non-empty), the detected format is
`CODE_39` and an enabled `CODE_32` entry exists in the settings, rewrite the
text with `Utils.convertCode39ToCode32` (abstracted as `convert`, the
conversion itself not being part of the given sources); otherwise leave the
text unchanged. -/
def code39FixSingleMode (formats : List BarcodeFormat) (r : BarcodeScanResult)
    (convert : String → String) : String :=
  if r.text != "" && r.format == "CODE_39" && code32Enabled formats then
    convert r.text
  else
    r.text

/-- The CODE_39 fix as written (a second time) in the `continue`-mode
subscription arm of `getBarcode`. -/
def code39FixContinueMode (formats : List BarcodeFormat) (r : BarcodeScanResult)
    (convert : String → String) : String :=
  if r.text != "" && r.format == "CODE_39" && code32Enabled formats then
    convert r.text
  else
    r.text

/-- The rewrite rule as the spec words it: "a narrower-symbology text is
rewritten to the wider-symbology form if and only if the wider format is
enabled in settings and the detected format matches the narrower one;
otherwise text passes through unchanged" — no non-emptiness condition. -/
def specCode39Rewrite (formats : List BarcodeFormat) (r : BarcodeScanResult)
    (convert : String → String) : String :=
  if r.format == "CODE_39" && code32Enabled formats then
    convert r.text
  else
    r.text

/-- The scan mode requested by the UI (`SelectScanningModePage.SCAN_MODE_*`). -/
inductive ScanMode where
  | enterManually
  | single
  | continueMode
deriving DecidableEq, Repr

/-- The effective acquisition mode (`ScanProvider.acqusitionMode`). -/
inductive AcqMode where
  | manual
  | single
  | mixedContinue
  | continueMode
deriving DecidableEq, Repr

/-- The derivation of `this.acqusitionMode` in `scan()`: `manual` and
`single` map to themselves; `continue` is downgraded to `mixed_continue`
when the profile has blocking output components, the platform is not
Android, or a (truthy, i.e. non-zero) continue-mode timeout is configured. -/
def deriveAcquisitionMode (scanMode : ScanMode) (blockingOutputComponents : Bool)
    (platformIsAndroid : Bool) (continueModeTimeout : Nat) : AcqMode :=
  match scanMode with
  | ScanMode.enterManually => AcqMode.manual
  | ScanMode.single => AcqMode.single
  | ScanMode.continueMode =>
    if blockingOutputComponents || !platformIsAndroid || continueModeTimeout != 0 then
      AcqMode.mixedContinue
    else
      AcqMode.continueMode

/-- Outcome of the quantity alert (`getQuantity`): the promise resolves,
rejects, or — when a handler returns without callbacks — stays pending. -/
inductive QuantityDialogOutcome where
  | resolvedQ (value : String)
  | rejectedQ (reason : String)
  | pendingQ
deriving DecidableEq, Repr

/-- The `Ok` button handler of `getQuantity`: a truthy (non-empty) entered
value resolves as-is; an empty value resolves the default `'1'` when the
configured quantity type is `number`; otherwise the handler returns without
resolving or rejecting. -/
def getQuantityOkHandler (quantityType : String) (dataQuantity : String) :
    QuantityDialogOutcome :=
  if dataQuantity != "" then
    QuantityDialogOutcome.resolvedQ dataQuantity
  else if quantityType == "number" then
    QuantityDialogOutcome.resolvedQ "1"
  else
    QuantityDialogOutcome.pendingQ

/-- The `Cancel` button handler of `getQuantity`: rejects with `cancelled`. -/
def getQuantityCancelHandler : QuantityDialogOutcome :=
  QuantityDialogOutcome.rejectedQ "cancelled"

/-- Global leftmost non-overlapping replacement of the literal pattern
`pat` by `rep`, on character lists with fuel (the fuel `s.length` always
suffices): models `code.replace(new RegExp(key, 'g'), replacement)` for a
literal `key`. -/
def replaceAllAux : Nat → List Char → List Char → List Char → List Char
  | 0, s, _, _ => s
  | _ + 1, [], _, _ => []
  | fuel + 1, c :: rest, pat, rep =>
    if !pat.isEmpty && pat.isPrefixOf (c :: rest) then
      rep ++ replaceAllAux fuel ((c :: rest).drop pat.length) pat rep
    else
      c :: replaceAllAux fuel rest pat rep

/-- String version of `replaceAllAux`. -/
def replaceAll (s pat rep : String) : String :=
  String.mk (replaceAllAux s.data.length s.data pat.data rep.data)

/-- The keys of the `variables` object of `scan()`, in insertion order —
the order `Object.keys(variables).forEach` visits them in `evalCode`. -/
def variableKeys : List String :=
  ["barcode", "barcodes", "quantity", "timestamp", "device_name"]

/-- The variable-injection step of `evalCode`: for each variable key, in
order, every occurrence of the key in the code string is textually replaced
by a lookup of the stashed copy on the host-global `window` object
(`window["<randomInt>"]["_<key>"]`); the rewritten string is then handed to
the raw host `eval`. -/
def injectVariables (randomInt : String) (code : String) : String :=
  variableKeys.foldl
    (fun c key =>
      replaceAll c key ("window[\"" ++ randomInt ++ "\"][\"_" ++ key ++ "\"]"))
    code

/-- An acquisition-collaborator response: the value the promise settled
with, together with the value of the provider-global `_scanCallId` field at
the moment the suspended `await` resumed (the environment's cancellation
token may have been replaced by a new top-level `scan()` while the pass was
suspended). -/
structure AcqResp (α : Type) where
  result : α
  tokenAtResume : Nat
deriving DecidableEq, Repr

/-- The static per-invocation environment of one interpreter pass: settings
values, the session name, `new Date` renderings, and the expression
evaluator oracle. `evalO code vars = none` models `evalCode` throwing; a
`some` result carries the host value's observations. `supplant` abstracts
the `Supplant().text` interpolation library. -/
structure PassEnv where
  deviceName : String
  scanSessionName : String
  localeDate : String
  localeTime : String
  now : Nat
  evalO : String → ScanVariables → Option JSVal
  supplant : String → ScanVariables → String

/-- The mutable state threaded through one interpreter pass: the variable
context, the `scan.quantity` backwards-compatibility field, the number of
error alerts presented so far by `evalCode`, and the pending collaborator
response streams (quantity prompt, select-option prompt, barcode
acquisition). A `none` result for a quantity or barcode response models the
promise rejecting with `cancelled`. -/
structure PassState where
  vars : ScanVariables
  scanQuantity : Option String
  alerts : Nat
  quantities : List (AcqResp (Option String))
  selects : List (AcqResp String)
  barcodes : List (AcqResp (Option String))
deriving DecidableEq, Repr

/-- How one interpreter pass ends: `completed scan` models reaching
`observer.next(scan)` with the assembled result record; every other
constructor models an early `observer.complete(); return` (no result record
is emitted for the pass) — `userCancelled` for a rejected quantity/barcode
promise, `invalidCondition` for an `if` whose condition failed to evaluate,
`superseded` for a stale `_scanCallId` detected after a barcode resume,
`pendingAcquisition` for a response stream exhausted by the modelled trace
(an acquisition that never settles), `unmatchedEndIf` for the
profile-validity violation of an `if` without a matching `endif`. -/
inductive PassOutcome where
  | completed (scan : ScanModel)
  | userCancelled
  | invalidCondition
  | superseded
  | pendingAcquisition
  | unmatchedEndIf
deriving DecidableEq, Repr

/-- One interpreter pass over the working copy of the profile: the body of
the `for` loop of `again()` in `scan()`, with the already-processed blocks
accumulated in reverse in `done` and the blocks still to process in `todo`
(the loop index `i` always points at the head of `todo`, so the in-place
`splice` calls of the `if` arm become `eraseIdx`/`drop` on `todo`:
`FindEndIfIndex(blocks, i + 1)` returns `i + 1 + j` exactly when
`findEndIfRel rest 0` returns `j`). After the loop the deprecated
`scan.text` and `scan.displayValue` fields are assembled and the record is
handed to `observer.next`. -/
def runBlocks (env : PassEnv) (capturedScanCallId : Nat) :
    PassState → List OutputBlockModel → List OutputBlockModel → PassOutcome × PassState
  | st, done, [] =>
    -- end of the for loop: assemble the ScanModel
    let resolved := done.reverse
    (PassOutcome.completed
      { id := env.now
        date := env.now
        repeated := false
        text := scanLegacyText resolved
        displayValue := ScanModelToString resolved
        outputBlocks := resolved
        quantity := st.scanQuantity },
     st)
  | st, done, b :: rest =>
    match b.type with
    | BlockType.key => runBlocks env capturedScanCallId st (b :: done) rest
    | BlockType.text => runBlocks env capturedScanCallId st (b :: done) rest
    | BlockType.variableB =>
      match b.value with
      | "deviceName" =>
        runBlocks env capturedScanCallId st ({ b with value := env.deviceName } :: done) rest
      | "timestamp" =>
        runBlocks env capturedScanCallId st
          ({ b with value := toString (env.now * 1000) } :: done) rest
      | "date" =>
        runBlocks env capturedScanCallId st ({ b with value := env.localeDate } :: done) rest
      | "time" =>
        runBlocks env capturedScanCallId st ({ b with value := env.localeTime } :: done) rest
      | "date_time" =>
        runBlocks env capturedScanCallId st
          ({ b with value := env.localeTime ++ " " ++ env.localeDate } :: done) rest
      | "scan_session_name" =>
        runBlocks env capturedScanCallId st
          ({ b with value := env.scanSessionName } :: done) rest
      | "quantity" =>
        match st.quantities with
        | [] => (PassOutcome.pendingAcquisition, st)
        | resp :: more =>
          match resp.result with
          | none =>
            -- getQuantity rejected: observer.complete(); return
            (PassOutcome.userCancelled, { st with quantities := more })
          | some q =>
            -- note: no _scanCallId re-check after this await in the source
            runBlocks env capturedScanCallId
              { st with
                  vars := { st.vars with quantity := some q }
                  scanQuantity := some q
                  quantities := more }
              ({ b with value := q } :: done) rest
      | _ => runBlocks env capturedScanCallId st (b :: done) rest
    | BlockType.select_option =>
      -- value is first interpolated, then replaced by the chosen option
      let _interpolated := env.supplant b.value st.vars
      match st.selects with
      | [] => (PassOutcome.pendingAcquisition, st)
      | resp :: more =>
        -- note: no _scanCallId re-check after this await in the source
        runBlocks env capturedScanCallId { st with selects := more }
          ({ b with value := resp.result } :: done) rest
    | BlockType.function =>
      match env.evalO b.value st.vars with
      | some v =>
        runBlocks env capturedScanCallId st ({ b with value := v.asString } :: done) rest
      | none =>
        -- evalCode presented the error alert and threw; the catch arm
        -- resolves the block to the empty value and the pass continues
        runBlocks env capturedScanCallId { st with alerts := st.alerts + 1 }
          ({ b with value := "" } :: done) rest
    | BlockType.barcode =>
      match st.barcodes with
      | [] => (PassOutcome.pendingAcquisition, st)
      | resp :: more =>
        match resp.result with
        | none =>
          -- getBarcode rejected: observer.complete(); return
          (PassOutcome.userCancelled, { st with barcodes := more })
        | some text =>
          if resp.tokenAtResume != capturedScanCallId then
            -- a new top-level scan() started while awaiting the barcode:
            -- observer.complete(); return — before any variable mutation
            (PassOutcome.superseded, { st with barcodes := more })
          else
            runBlocks env capturedScanCallId
              { st with
                  vars :=
                    { st.vars with
                        barcode := text
                        barcodes := st.vars.barcodes ++ [text] }
                  barcodes := more }
              ({ b with value := text } :: done) rest
    | BlockType.delay => runBlocks env capturedScanCallId st (b :: done) rest
    | BlockType.run =>
      runBlocks env capturedScanCallId st
        ({ b with value := env.supplant b.value st.vars } :: done) rest
    | BlockType.http =>
      runBlocks env capturedScanCallId st
        ({ b with value := env.supplant b.value st.vars } :: done) rest
    | BlockType.ifB =>
      match env.evalO b.value st.vars with
      | none =>
        -- "if the condition cannot be evaluated we must stop":
        -- evalCode presented the alert;  observer.complete(); return
        (PassOutcome.invalidCondition, { st with alerts := st.alerts + 1 })
      | some v =>
        match findEndIfRel rest 0 with
        | none => (PassOutcome.unmatchedEndIf, st)
        | some j =>
          if v.eqTrue then
            -- condition true: splice out the 'if' (the head) and the
            -- matching 'endif' (index j of rest); i-- then i++ resumes at
            -- the same position
            runBlocks env capturedScanCallId st done (rest.eraseIdx j)
          else
            -- condition false: splice out the whole bracketed range,
            -- 'if' and 'endif' inclusive
            runBlocks env capturedScanCallId st done (rest.drop (j + 1))
    | BlockType.endifB =>
      -- no 'endif' arm in the source switch: the block passes through
      runBlocks env capturedScanCallId st (b :: done) rest
termination_by _st _done todo => todo.length
decreasing_by
  all_goals simp only [List.length_cons]
  all_goals
    first
      | exact Nat.lt_succ_of_le (List.length_eraseIdx_le _ _)
      | (rw [List.length_drop]; omega)
      | omega

/-- The initial variable context seeded at the top of each `again()` pass. -/
def initialVariables (env : PassEnv) : ScanVariables :=
  { barcode := ""
    barcodes := []
    quantity := none
    timestamp := env.now * 1000
    device_name := env.deviceName }

/-- The deep-copy-per-scan of the master profile
(`JSON.parse(JSON.stringify(this.outputProfile.outputBlocks))`): a
structural clone of every block. -/
def jsonClone (bs : List OutputBlockModel) : List OutputBlockModel :=
  bs.map (fun b => { type := b.type, value := b.value, label := b.label })

/-- The state owned by the scan-loop orchestrator across iterations of
`again()`: the master profile, the `_scanCallId` captured by this top-level
`scan()` invocation, the infinite-loop guard counter and previous
display value, and the effective acquisition mode. -/
structure OrchState where
  outputProfile : List OutputBlockModel
  capturedScanCallId : Nat
  againCount : Nat
  prevScanDisplayValue : String
  acqMode : AcqMode
deriving DecidableEq, Repr

/-- The environment-supplied inputs of one `again()` iteration:
`globalScanCallId` is `this._scanCallId` at iteration entry (a later
top-level `scan()` replaces it), `idleMsBeforeEntry` the idle time since
the previous pass armed the 500 ms `resetAgainCountTimer` debounce,
`loopAnswer` the answer to `showPreventInfiniteLoopDialog` (consumed only
when the dialog is shown), `addMoreAnswer` the answer to
`showAddMoreDialog` (consumed only in `mixed_continue` mode, with its
auto-accept countdown absorbed into the answer), and the collaborator
response streams of the pass. -/
structure AgainInput where
  globalScanCallId : Nat
  idleMsBeforeEntry : Nat
  loopAnswer : Bool
  addMoreAnswer : Bool
  quantities : List (AcqResp (Option String))
  selects : List (AcqResp String)
  barcodes : List (AcqResp (Option String))
deriving DecidableEq, Repr

/-- The observable outcome of one `again()` iteration. -/
structure AgainResult where
  state : OrchState
  emitted : Option ScanModel
  loopPrompted : Bool
  keepLooping : Bool
deriving DecidableEq, Repr

/-- The `setTimeout(() => againCount = 0, 500)` debounce interval. -/
def RESET_AGAIN_COUNT_DEBOUNCE_MS : Nat := 500

/-- The infinite-loop guard update at the end of a successful pass:
`if (scan.displayValue == prevScanDisplayValue) againCount++;` — there is
no `else` branch, so a differing display value leaves the counter
unchanged. -/
def updateAgainCount (againCount : Nat) (prevScanDisplayValue displayValue : String) : Nat :=
  if displayValue == prevScanDisplayValue then againCount + 1 else againCount

/-- One interpreter pass as invoked from `again()`: the working copy is a
deep copy of the master profile and the variable context is freshly
seeded. -/
def runPass (env : PassEnv) (capturedScanCallId : Nat) (profile : List OutputBlockModel)
    (inp : AgainInput) : PassOutcome × PassState :=
  runBlocks env capturedScanCallId
    { vars := initialVariables env
      scanQuantity := none
      alerts := 0
      quantities := inp.quantities
      selects := inp.selects
      barcodes := inp.barcodes }
    [] (jsonClone profile)

/-- One iteration of `again()`: first the armed debounce timer fires if at
least 500 ms of idle elapsed (resetting `againCount`); then the iteration
checks the cancellation token (`_scanCallId != this._scanCallId` completes
the sequence silently); then the infinite-loop guard (`againCount > 30`)
shows the confirmation dialog — answering stop completes the sequence;
then one interpreter pass runs; on a completed pass the guard counter and
previous display value are updated, the scan is emitted, and the effective
acquisition mode decides whether to loop; any pass abort completes the
sequence without emitting. -/
def againStep (env : PassEnv) (st : OrchState) (inp : AgainInput) : AgainResult :=
  let count0 :=
    if RESET_AGAIN_COUNT_DEBOUNCE_MS ≤ inp.idleMsBeforeEntry then 0 else st.againCount
  let st0 := { st with againCount := count0 }
  if st.capturedScanCallId != inp.globalScanCallId then
    { state := st0, emitted := none, loopPrompted := false, keepLooping := false }
  else
    let prompted := 30 < count0
    if prompted && !inp.loopAnswer then
      { state := st0, emitted := none, loopPrompted := true, keepLooping := false }
    else
      match runPass env st.capturedScanCallId st.outputProfile inp with
      | (PassOutcome.completed scan, _) =>
        let st1 :=
          { st0 with
              againCount := updateAgainCount count0 st.prevScanDisplayValue scan.displayValue
              prevScanDisplayValue := scan.displayValue }
        match st.acqMode with
        | AcqMode.continueMode =>
          { state := st1, emitted := some scan, loopPrompted := prompted, keepLooping := true }
        | AcqMode.mixedContinue =>
          { state := st1, emitted := some scan, loopPrompted := prompted,
            keepLooping := inp.addMoreAnswer }
        | AcqMode.manual =>
          { state := st1, emitted := some scan, loopPrompted := prompted, keepLooping := true }
        | AcqMode.single =>
          { state := st1, emitted := some scan, loopPrompted := prompted, keepLooping := false }
      | (_, _) =>
        { state := st0, emitted := none, loopPrompted := prompted, keepLooping := false }

/-- The orchestrator loop: iterate `againStep` over a trace of per-iteration
inputs, collecting the emitted result records, stopping when an iteration
completes the sequence. -/
def runAgain (env : PassEnv) : OrchState → List AgainInput → OrchState × List ScanModel
  | st, [] => (st, [])
  | st, inp :: more =>
    let r := againStep env st inp
    if r.keepLooping then
      let tail := runAgain env r.state more
      (tail.1, r.emitted.toList ++ tail.2)
    else
      (r.state, r.emitted.toList)

/-! ### Helper lemmas -/

theorem length_FindEndIfIndex_rel (blocks : List OutputBlockModel) (startFrom : Nat) :
    FindEndIfIndex blocks startFrom = (findEndIfRel (blocks.drop startFrom) 0).map (· + startFrom) :=
  rfl

theorem findEndIfRel_balanced (e : OutputBlockModel) (he : e.type = BlockType.endifB)
    (post : List OutputBlockModel) :
    ∀ (body : List OutputBlockModel) (d : Nat), balFrom d body = true →
      findEndIfRel (body ++ e :: post) d = some body.length := by
  intro body
  induction body with
  | nil =>
    intro d hb
    have hd : d = 0 := by
      have := of_decide_eq_true (by simpa [balFrom] using hb)
      omega
    subst hd
    simp [findEndIfRel, he]
  | cons b t ih =>
    intro d hb
    cases hbt : b.type <;>
      simp only [balFrom, hbt] at hb <;>
      simp only [List.cons_append, findEndIfRel, hbt, List.length_cons]
    case endifB =>
      rcases Bool.and_eq_true_iff.mp hb with ⟨hpos, hbal⟩
      have hd : ¬ d = 0 := by
        have := of_decide_eq_true hpos
        omega
      simp [hd, ih _ hbal]
    case ifB => simp [ih _ hb]
    all_goals simp [ih _ hb]

theorem eraseIdx_append_length {α : Type} (l₁ : List α) (a : α) (l₂ : List α) :
    (l₁ ++ a :: l₂).eraseIdx l₁.length = l₁ ++ l₂ := by
  induction l₁ with
  | nil => rfl
  | cons x t ih => simpa [List.eraseIdx] using ih

theorem drop_append_length_succ {α : Type} (l₁ : List α) (a : α) (l₂ : List α) :
    (l₁ ++ a :: l₂).drop (l₁.length + 1) = l₂ := by
  have h : l₁ ++ a :: l₂ = (l₁ ++ [a]) ++ l₂ := by simp
  have hlen : l₁.length + 1 = (l₁ ++ [a]).length := by simp
  rw [h, hlen, List.drop_left]

/-! ### C1 — If/EndIf branching -/

/-- C1: for every reachable interpreter configuration (arbitrary processed
prefix, variable context, response streams) at an `if` block whose bracketed
content `body` is well nested (arbitrary depth) and whose condition
evaluates to `v`: if `v == true` the rest of the pass equals executing the
bracketed content with only the `if` and its matching `endif` markers
removed; otherwise it equals executing the profile with the entire
bracketed range, both markers inclusive, removed (none of that content
executes); either way scanning resumes at the same logical position, no
block skipped. -/
theorem ifBlock_true_false_branching (env : PassEnv) (tok : Nat) (st : PassState)
    (done : List OutputBlockModel) (cond ev : String) (lbl lbl2 : Option String)
    (body post : List OutputBlockModel) (v : JSVal)
    (hbal : balFrom 0 body = true)
    (he : env.evalO cond st.vars = some v) :
    runBlocks env tok st done
        ({ type := BlockType.ifB, value := cond, label := lbl } ::
          (body ++ { type := BlockType.endifB, value := ev, label := lbl2 } :: post)) =
      runBlocks env tok st done (if v.eqTrue then body ++ post else post) := by
  have hfind :
      findEndIfRel (body ++ { type := BlockType.endifB, value := ev, label := lbl2 } :: post) 0 =
        some body.length :=
    findEndIfRel_balanced _ rfl post body 0 hbal
  rw [runBlocks]
  simp only [he, hfind]
  rw [eraseIdx_append_length, drop_append_length_succ]
  cases hv : v.eqTrue <;> simp [hv]

/-- A concrete pass environment whose evaluator oracle always returns the
host value `true`. -/
def envTrue : PassEnv :=
  { deviceName := "D"
    scanSessionName := "S"
    localeDate := "d"
    localeTime := "t"
    now := 7
    evalO := fun _ _ => some { asString := "true", eqTrue := true }
    supplant := fun s _ => s }

/-- A concrete pass state with freshly seeded variables and empty response
streams. -/
def stEmpty : PassState :=
  { vars := initialVariables envTrue
    scanQuantity := none
    alerts := 0
    quantities := []
    selects := []
    barcodes := [] }

theorem ifBlock_true_false_branching_witness :
    balFrom 0 [{ type := BlockType.text, value := "M", label := none }] = true ∧
    envTrue.evalO "c" stEmpty.vars = some { asString := "true", eqTrue := true } ∧
    runBlocks envTrue 0 stEmpty []
        ({ type := BlockType.ifB, value := "c", label := none } ::
          ([{ type := BlockType.text, value := "M", label := none }] ++
            { type := BlockType.endifB, value := "", label := none } :: [])) =
      runBlocks envTrue 0 stEmpty []
        (if ({ asString := "true", eqTrue := true } : JSVal).eqTrue then
          [{ type := BlockType.text, value := "M", label := none }] ++ []
        else
          []) :=
  ⟨by decide, rfl,
    ifBlock_true_false_branching envTrue 0 stEmpty [] "c" "" none none
      [{ type := BlockType.text, value := "M", label := none }] []
      { asString := "true", eqTrue := true } (by decide) rfl⟩

/-! ### C3 — acquisition mode derivation -/

/-- C3: the effective-mode derivation (a pure function by construction)
maps `manual` to `manual`, `single` to `single`, and `continue` to the pure
hardware-continuous mode exactly when there is no blocking output
component, the platform is Android, and no continue-mode timeout is
configured; otherwise `continue` yields `mixed_continue`. -/
theorem deriveAcquisitionMode_table (b a : Bool) (t : Nat) :
    deriveAcquisitionMode ScanMode.enterManually b a t = AcqMode.manual ∧
    deriveAcquisitionMode ScanMode.single b a t = AcqMode.single ∧
    (deriveAcquisitionMode ScanMode.continueMode b a t = AcqMode.continueMode ↔
      (b = false ∧ a = true ∧ t = 0)) ∧
    (deriveAcquisitionMode ScanMode.continueMode b a t = AcqMode.mixedContinue ↔
      (b = true ∨ a = false ∨ 0 < t)) := by
  refine ⟨rfl, rfl, ?_, ?_⟩ <;>
  · cases b <;> cases a <;>
      rcases Nat.eq_zero_or_pos t with ht | ht <;>
        simp_all [deriveAcquisitionMode] <;> omega

/-! ### C6 — CODE_39 → CODE_32 text rewrite -/

/-- A format list enabling `CODE_32`. -/
def fmtsC32 : List BarcodeFormat := [{ enabled := true, name := "CODE_32" }]

/-- A `CODE_39` scan result with empty text. -/
def emptyC39 : BarcodeScanResult := { cancelled := false, text := "", format := "CODE_39" }

/-- C6 counterexample: with `CODE_32` enabled and detected format `CODE_39`
— the claim's exact rewrite condition — the code leaves an empty text
unchanged instead of rewriting it (the fix has an extra
`barcodeScanResult.text` truthiness guard), so for a conversion that maps
the empty string to `"X"` the acquired text is not the rewritten one the
claim demands. -/
theorem code39_fix_empty_text_counterexample :
    code39FixSingleMode fmtsC32 emptyC39 (fun _ => "X") = "" ∧
    specCode39Rewrite fmtsC32 emptyC39 (fun _ => "X") = "X" ∧
    code39FixSingleMode fmtsC32 emptyC39 (fun _ => "X") ≠
      specCode39Rewrite fmtsC32 emptyC39 (fun _ => "X") := by
  refine ⟨rfl, rfl, ?_⟩
  decide

/-- C6 amended: the one-shot (`single`/`mixed_continue`) arm and the
continuous-subscription arm compute the identical rewrite; a non-empty
acquired text is rewritten if and only if the wider format is enabled and
the detected format is the narrower one (the spec's rule); an empty text
always passes through unchanged. -/
theorem code39_fix_amended (formats : List BarcodeFormat) (r : BarcodeScanResult)
    (convert : String → String) :
    code39FixSingleMode formats r convert = code39FixContinueMode formats r convert ∧
    (r.text ≠ "" →
      code39FixSingleMode formats r convert = specCode39Rewrite formats r convert) ∧
    (r.text = "" → code39FixSingleMode formats r convert = r.text) := by
  refine ⟨rfl, ?_, ?_⟩
  · intro h
    simp [code39FixSingleMode, specCode39Rewrite, h]
  · intro h
    simp [code39FixSingleMode, h]

theorem code39_fix_witness :
    ({ cancelled := false, text := "ABC", format := "CODE_39" } : BarcodeScanResult).text ≠ "" ∧
    code39FixSingleMode fmtsC32 { cancelled := false, text := "ABC", format := "CODE_39" }
        (fun s => s ++ "!") =
      specCode39Rewrite fmtsC32 { cancelled := false, text := "ABC", format := "CODE_39" }
        (fun s => s ++ "!") :=
  ⟨by decide,
    (code39_fix_amended fmtsC32 { cancelled := false, text := "ABC", format := "CODE_39" }
      (fun s => s ++ "!")).2.1 (by decide)⟩

/-! ### C9 — the evalCode variable-injection rewrite -/

/-- C9: the textual variable-injection step of `evalCode` does not bind
identifiers to the declared variable context. First, replacing the key
`barcode` (an all-occurrences substring replacement) mangles the later key
`barcodes`: the expression `barcodes.length` is rewritten to a lookup of
the `barcode` stash followed by a stray `s`, not to a lookup of the
`barcodes` variable. Second, an identifier that is not a context key —
here the host global `Math` — is passed through verbatim to the raw host
`eval`, where all of the host's global state is reachable. -/
theorem evalCode_rewrite_escapes_context :
    injectVariables "7" "barcodes.length" = "window[\"7\"][\"_barcode\"]s.length" ∧
    injectVariables "7" "Math.floor(2)" = "Math.floor(2)" :=
  ⟨by decide, by decide⟩

/-! ### C10 — quantity dialog button handlers -/

/-- C10: the `Ok` handler of the quantity alert resolves a non-empty
entered value as that string; with an empty value it resolves the default
`'1'` when the configured quantity type is `number`, and otherwise returns
without resolving or rejecting, leaving the acquisition pending; the
`Cancel` handler rejects with `cancelled`. -/
theorem quantity_dialog_handlers (t s : String) :
    (s ≠ "" → getQuantityOkHandler t s = QuantityDialogOutcome.resolvedQ s) ∧
    getQuantityOkHandler "number" "" = QuantityDialogOutcome.resolvedQ "1" ∧
    (t ≠ "number" → getQuantityOkHandler t "" = QuantityDialogOutcome.pendingQ) ∧
    getQuantityCancelHandler = QuantityDialogOutcome.rejectedQ "cancelled" := by
  refine ⟨?_, rfl, ?_, rfl⟩
  · intro h
    simp [getQuantityOkHandler, h]
  · intro h
    simp [getQuantityOkHandler, h]

theorem quantity_dialog_handlers_witness :
    getQuantityOkHandler "text" "ten" = QuantityDialogOutcome.resolvedQ "ten" ∧
    getQuantityOkHandler "text" "" = QuantityDialogOutcome.pendingQ :=
  ⟨(quantity_dialog_handlers "text" "ten").1 (by decide),
    (quantity_dialog_handlers "text" "").2.2.1 (by decide)⟩

/-! ### C7 — quantity prompt cancellation -/

/-- C7: whenever the interpreter, in any reachable configuration, reaches a
quantity-acquiring `variable` block and the quantity prompt rejects (the
user pressed Cancel), the whole pass aborts with reason `user-cancelled`:
no result record is emitted, the variable context is not touched, and none
of the later blocks (`rest`) executes — no further collaborator response is
consumed. Moreover any `again()` iteration whose pass ends `user-cancelled`
completes the sequence having emitted nothing. -/
theorem quantity_cancel_aborts (env : PassEnv) (tok : Nat) (st : PassState)
    (done rest : List OutputBlockModel) (lbl : Option String) (t : Nat)
    (more : List (AcqResp (Option String)))
    (hq : st.quantities = { result := none, tokenAtResume := t } :: more) :
    runBlocks env tok st done
        ({ type := BlockType.variableB, value := "quantity", label := lbl } :: rest) =
      (PassOutcome.userCancelled, { st with quantities := more }) ∧
    ∀ (ost : OrchState) (inp : AgainInput) (ps : PassState),
      runPass env ost.capturedScanCallId ost.outputProfile inp =
        (PassOutcome.userCancelled, ps) →
      (againStep env ost inp).emitted = none ∧ (againStep env ost inp).keepLooping = false := by
  constructor
  · rw [runBlocks]
    simp [hq]
  · intro ost inp ps h
    constructor <;>
    · simp only [againStep, h]
      repeat' split
      all_goals rfl

/-- A pass state whose quantity prompt rejects. -/
def stQuantCancel : PassState :=
  { vars := initialVariables envTrue
    scanQuantity := none
    alerts := 0
    quantities := [{ result := none, tokenAtResume := 0 }]
    selects := []
    barcodes := [] }

theorem quantity_cancel_aborts_witness :
    runBlocks envTrue 0 stQuantCancel []
        [{ type := BlockType.variableB, value := "quantity", label := none }] =
      (PassOutcome.userCancelled, { stQuantCancel with quantities := [] }) :=
  (quantity_cancel_aborts envTrue 0 stQuantCancel [] [] none 0 [] rfl).1

/-! ### C4 — cancellation-generation token -/

/-- C4 amended: a pass suspended awaiting a barcode whose `await` resumes
with a changed `_scanCallId` terminates immediately as superseded: it emits
no result record, performs no further mutation of its variable context, and
consumes nothing beyond the offending response; likewise an `again()`
iteration entered with a stale token completes silently without running a
pass. (The quantity and select-option suspension points, by contrast, do
not re-check the token — see the counterexample.) -/
theorem superseded_barcode_resume (env : PassEnv) (tok : Nat) (st : PassState)
    (done rest : List OutputBlockModel) (bv : String) (lbl : Option String)
    (text : String) (t : Nat) (more : List (AcqResp (Option String)))
    (hb : st.barcodes = { result := some text, tokenAtResume := t } :: more)
    (ht : t ≠ tok) :
    runBlocks env tok st done
        ({ type := BlockType.barcode, value := bv, label := lbl } :: rest) =
      (PassOutcome.superseded, { st with barcodes := more }) ∧
    ∀ (ost : OrchState) (inp : AgainInput),
      ost.capturedScanCallId ≠ inp.globalScanCallId →
      againStep env ost inp =
        { state :=
            { ost with
                againCount :=
                  if RESET_AGAIN_COUNT_DEBOUNCE_MS ≤ inp.idleMsBeforeEntry then 0
                  else ost.againCount }
          emitted := none
          loopPrompted := false
          keepLooping := false } := by
  constructor
  · rw [runBlocks]
    simp [hb, ht]
  · intro ost inp h
    simp [againStep, h]

/-- A pass state holding a quantity response that resumed after the global
`_scanCallId` changed to `99`. -/
def stQuantStale : PassState :=
  { vars := initialVariables envTrue
    scanQuantity := none
    alerts := 0
    quantities := [{ result := some "5", tokenAtResume := 99 }]
    selects := []
    barcodes := [] }

/-- C4 counterexample: not every suspension point re-checks the token. A
pass captured with token `1` and suspended at the quantity prompt, whose
prompt resolves after the global token changed to `99` (≠ 1), proceeds
after resumption: it mutates its variable context (`quantity := "5"`) and
runs to completion, instead of terminating as superseded. -/
theorem quantity_resume_skips_token_check :
    runBlocks envTrue 1 stQuantStale []
        [{ type := BlockType.variableB, value := "quantity", label := none }] =
      (PassOutcome.completed
        { id := 7, date := 7, repeated := false, text := "", displayValue := "5"
          outputBlocks := [{ type := BlockType.variableB, value := "5", label := none }]
          quantity := some "5" },
       { stQuantStale with
           vars := { initialVariables envTrue with quantity := some "5" }
           scanQuantity := some "5"
           quantities := [] }) ∧
    (99 : Nat) ≠ 1 := by
  constructor
  · rw [runBlocks]
    simp only [stQuantStale]
    rw [runBlocks]
    simp [scanLegacyText, ScanModelToString, envTrue, initialVariables]
    all_goals decide
  · decide

/-- A pass state holding a barcode response that resumed after the global
`_scanCallId` changed to `2`. -/
def stBarStale : PassState :=
  { vars := initialVariables envTrue
    scanQuantity := none
    alerts := 0
    quantities := []
    selects := []
    barcodes := [{ result := some "X", tokenAtResume := 2 }] }

theorem superseded_barcode_resume_witness :
    runBlocks envTrue 1 stBarStale []
        [{ type := BlockType.barcode, value := "", label := none }] =
      (PassOutcome.superseded, { stBarStale with barcodes := [] }) :=
  (superseded_barcode_resume envTrue 1 stBarStale [] [] "" none "X" 2 [] rfl
    (by decide)).1

/-! ### C5 — evaluation-failure handling -/

/-- C5 amended: an evaluation failure while resolving an `If` condition
aborts the pass (`invalid-condition`, no result record) after `evalCode`
presents the error alert; an evaluation failure in a `Function` block also
presents the error alert inside `evalCode` (it is not silent), after which
the block resolves to the empty value and the pass continues. -/
theorem eval_failure_asymmetry (env : PassEnv) (tok : Nat) (st : PassState)
    (done rest : List OutputBlockModel) (cond : String) (lbl : Option String)
    (he : env.evalO cond st.vars = none) :
    runBlocks env tok st done ({ type := BlockType.ifB, value := cond, label := lbl } :: rest) =
      (PassOutcome.invalidCondition, { st with alerts := st.alerts + 1 }) ∧
    runBlocks env tok st done
        ({ type := BlockType.function, value := cond, label := lbl } :: rest) =
      runBlocks env tok { st with alerts := st.alerts + 1 }
        ({ type := BlockType.function, value := "", label := lbl } :: done) rest := by
  constructor
  · rw [runBlocks]
    simp [he]
  · rw [runBlocks]
    simp [he]

/-- A concrete pass environment whose evaluator oracle always throws. -/
def envEvalFails : PassEnv :=
  { deviceName := "D"
    scanSessionName := "S"
    localeDate := "d"
    localeTime := "t"
    now := 7
    evalO := fun _ _ => none
    supplant := fun s _ => s }

/-- C5 counterexample: a failing `Function` block is not silently swallowed
— `evalCode` presents the error alert (alert count 1) before the catch arm
resolves the block to the empty value and the pass continues to
completion. -/
theorem function_failure_presents_alert :
    (runBlocks envEvalFails 0 stEmpty []
        [{ type := BlockType.function, value := "x", label := none }]).2.alerts = 1 ∧
    (runBlocks envEvalFails 0 stEmpty []
        [{ type := BlockType.function, value := "x", label := none }]).1 =
      PassOutcome.completed
        { id := 7, date := 7, repeated := false, text := "", displayValue := ""
          outputBlocks := [{ type := BlockType.function, value := "", label := none }]
          quantity := none } := by
  constructor <;>
  · rw [runBlocks]
    simp only [envEvalFails]
    rw [runBlocks]
    simp [scanLegacyText, ScanModelToString, stEmpty]
    all_goals decide

theorem eval_failure_asymmetry_witness :
    runBlocks envEvalFails 0 stEmpty []
        [{ type := BlockType.ifB, value := "y", label := none }] =
      (PassOutcome.invalidCondition, { stEmpty with alerts := stEmpty.alerts + 1 }) :=
  (eval_failure_asymmetry envEvalFails 0 stEmpty [] [] "y" none rfl).1

/-! ### C2 — infinite-loop guard -/

/-- C2 amended: across interpreter passes, a pass whose `display_value`
equals the previous pass's increments the repeat counter, while a differing
`display_value` leaves the counter unchanged (there is no reset-to-zero on
change); the counter is reset to zero only by the debounce timer after a
500 ms idle window, in which case the threshold check of the next iteration
cannot prompt; with a current token the confirmation prompt is shown
exactly when the entry counter exceeds 30 — at every such iteration, not
once per crossing — and answering stop completes the sequence without
running a pass or emitting a result. -/
theorem againCount_guard_semantics :
    (∀ (c : Nat) (p dv : String), dv = p → updateAgainCount c p dv = c + 1) ∧
    (∀ (c : Nat) (p dv : String), dv ≠ p → updateAgainCount c p dv = c) ∧
    RESET_AGAIN_COUNT_DEBOUNCE_MS = 500 ∧
    (∀ (env : PassEnv) (st : OrchState) (inp : AgainInput),
      RESET_AGAIN_COUNT_DEBOUNCE_MS ≤ inp.idleMsBeforeEntry →
      (againStep env st inp).loopPrompted = false) ∧
    (∀ (env : PassEnv) (st : OrchState) (inp : AgainInput),
      st.capturedScanCallId = inp.globalScanCallId →
      (againStep env st inp).loopPrompted =
        decide (30 <
          if RESET_AGAIN_COUNT_DEBOUNCE_MS ≤ inp.idleMsBeforeEntry then 0
          else st.againCount)) ∧
    (∀ (env : PassEnv) (st : OrchState) (inp : AgainInput),
      st.capturedScanCallId = inp.globalScanCallId →
      30 < (if RESET_AGAIN_COUNT_DEBOUNCE_MS ≤ inp.idleMsBeforeEntry then 0
        else st.againCount) →
      inp.loopAnswer = false →
      againStep env st inp =
        { state :=
            { st with
                againCount :=
                  if RESET_AGAIN_COUNT_DEBOUNCE_MS ≤ inp.idleMsBeforeEntry then 0
                  else st.againCount }
          emitted := none
          loopPrompted := true
          keepLooping := false }) := by
  refine ⟨?_, ?_, rfl, ?_, ?_, ?_⟩
  · intro c p dv h
    simp [updateAgainCount, h]
  · intro c p dv h
    simp [updateAgainCount, h]
  · intro env st inp h
    simp only [againStep, if_pos h]
    repeat' split
    all_goals simp_all
  · intro env st inp h
    simp only [againStep, h, bne_self_eq_false, Bool.false_eq_true, if_false]
    repeat' split
    all_goals simp_all
  · intro env st inp h1 h2 h3
    simp only [againStep, h1, bne_self_eq_false, Bool.false_eq_true, if_false, h3]
    simp [h2]

theorem againCount_guard_semantics_witness :
    updateAgainCount 4 "z" "z" = 5 ∧ updateAgainCount 4 "z" "w" = 4 :=
  ⟨againCount_guard_semantics.1 4 "z" "z" rfl,
    againCount_guard_semantics.2.1 4 "z" "w" (by decide)⟩

/-- An orchestrator state mid-sequence: counter `5`, previous display value
`"a"`, empty master profile, captured token `3`, single mode. -/
def stC2 : OrchState :=
  { outputProfile := []
    capturedScanCallId := 3
    againCount := 5
    prevScanDisplayValue := "a"
    acqMode := AcqMode.single }

/-- An iteration input with a current token and no idle gap. -/
def inpC2 : AgainInput :=
  { globalScanCallId := 3
    idleMsBeforeEntry := 0
    loopAnswer := true
    addMoreAnswer := true
    quantities := []
    selects := []
    barcodes := [] }

/-- C2 counterexample: a pass whose `display_value` (`""`) differs from the
previous pass's (`"a"`), with no idle gap, leaves the repeat counter at `5`
— it is not reset to zero as the claim states (there is no `else` branch in
the source; only the debounce timer resets the counter). -/
theorem againCount_not_reset_on_differing_value :
    stC2.againCount = 5 ∧
    stC2.prevScanDisplayValue = "a" ∧
    (againStep envTrue stC2 inpC2).state.prevScanDisplayValue = "" ∧
    (againStep envTrue stC2 inpC2).state.againCount = 5 := by
  refine ⟨rfl, rfl, ?_, ?_⟩ <;>
  · simp only [againStep, runPass, stC2, inpC2, jsonClone, List.map_nil]
    rw [runBlocks]
    simp [updateAgainCount, scanLegacyText, ScanModelToString, envTrue,
      initialVariables, RESET_AGAIN_COUNT_DEBOUNCE_MS]
    all_goals decide

/-! ### C8 — deep copy per scan -/

/-- C8: each pass executes over a structural deep copy of the master
profile (`jsonClone`, which reproduces every block field-by-field and so
equals the master), and after any number of `again()` iterations — however
the pass splices its working copy or overwrites block values — the
orchestrator's master profile block sequence is unchanged. -/
theorem master_profile_never_mutated :
    (∀ bs : List OutputBlockModel, jsonClone bs = bs) ∧
    ∀ (env : PassEnv) (st : OrchState) (inputs : List AgainInput),
      (runAgain env st inputs).1.outputProfile = st.outputProfile := by
  have hstep : ∀ (env : PassEnv) (s : OrchState) (inp : AgainInput),
      (againStep env s inp).state.outputProfile = s.outputProfile := by
    intro env s inp
    simp only [againStep]
    repeat' split
    all_goals rfl
  constructor
  · intro bs
    induction bs with
    | nil => rfl
    | cons b t ih =>
      simp only [jsonClone, List.map_cons] at ih ⊢
      rw [ih]
  · intro env st inputs
    induction inputs generalizing st with
    | nil => rfl
    | cons inp more ih =>
      simp only [runAgain]
      split
      · rw [ih ((againStep env st inp).state), hstep]
      · exact hstep env st inp
